import Mathlib

/-!
Shallow embedding of the meetingbot backend (src/backend) for checking the
natural-language specification against the code.

Embedded modules:
  * `src/backend/bot/meet_bot.py` — `MeetBot` (cleanup, stop_recording) and
    `BotManager` (start_bot, stop_bot, get_bot_status).
  * `src/backend/ai.py` — `generate_meeting_summary` and `_get_mock_data`,
    with the remote Gemini client and `json.loads` abstracted as oracles.
  * `src/backend/bot/routes.py` — the `/bot/join`, `/bot/leave`,
    `/bot/status`, `/bot/audio-chunk` and `/bot/save-audio` handlers, with
    the database and filesystem made explicit state.

Python exceptions are modelled with `Except`; stateful handlers return the
new state explicitly, so "raises before mutating" becomes "returns the input
state unchanged".
-/

/-- A JSON value, standing for the result of Python's json.loads and for the
dict/list payloads the backend passes around. -/
inductive Json where
  | null : Json
  | bool (b : Bool) : Json
  | num (n : Int) : Json
  | str (s : String) : Json
  | arr (xs : List Json) : Json
  | obj (fields : List (String × Json)) : Json

/-- Field lookup in a JSON object; `none` on non-objects or missing keys. -/
def jsonLookup (j : Json) (key : String) : Option Json :=
  match j with
  | .obj fields => fields.lookup key
  | _ => none

/-! ## MeetBot cleanup (src/backend/bot/meet_bot.py, `MeetBot.cleanup`) -/

/-- Which of the three browser resources a `MeetBot` currently holds
(`self.page`, `self.context`, `self.browser` being non-None). -/
structure BotResources where
  page : Bool
  context : Bool
  browser : Bool
deriving DecidableEq

/-- Oracle for the nondeterministic environment: whether each `close()` call
would raise if attempted. -/
structure CleanupEnv where
  page_close_fails : Bool
  context_close_fails : Bool
  browser_close_fails : Bool
deriving DecidableEq

/-- Which `close()` calls ran to completion during `cleanup`. -/
structure CleanupResult where
  page_closed : Bool
  context_closed : Bool
  browser_closed : Bool
deriving DecidableEq

/-- Embedding of `MeetBot.cleanup`: the three guarded `close()` calls run
sequentially inside one `try`/`except` block, so the first close that raises
aborts the remaining closes, and the exception is swallowed. -/
def cleanup (res : BotResources) (env : CleanupEnv) : CleanupResult :=
  if res.page && env.page_close_fails then
    ⟨false, false, false⟩
  else if res.context && env.context_close_fails then
    ⟨res.page, false, false⟩
  else if res.browser && env.browser_close_fails then
    ⟨res.page, res.context, false⟩
  else
    ⟨res.page, res.context, res.browser⟩

/-! ## BotManager (src/backend/bot/meet_bot.py) -/

/-- The registry-relevant state of one `MeetBot` instance. -/
structure MeetBot where
  meeting_id : Int
  meet_url : String
  meeting_title : String
  is_recording : Bool
deriving DecidableEq

/-- `MeetBot.__init__`: a freshly constructed bot is not recording. -/
def MeetBot.init (meeting_id : Int) (meet_url meeting_title : String) : MeetBot :=
  ⟨meeting_id, meet_url, meeting_title, false⟩

/-- Embedding of `MeetBot.stop_recording` as far as registry state goes: a
no-op when not recording, otherwise it clears the recording flag (the
extension signal and the best-effort leave click have no registry effect). -/
def MeetBot.stop_recording (bot : MeetBot) : MeetBot :=
  if !bot.is_recording then bot else { bot with is_recording := false }

/-- `BotManager`: the `active_bots` dict, as an association list keyed by
meeting id (Python dict keys are unique; every operation below preserves
that). -/
structure BotManager where
  active_bots : List (Int × MeetBot)
deriving DecidableEq

/-- Membership test `meeting_id in self.active_bots`. -/
def BotManager.find (m : BotManager) (meeting_id : Int) : Option MeetBot :=
  m.active_bots.lookup meeting_id

/-- Embedding of `BotManager.start_bot`. Raising is returning `.error`;
the registry returned alongside is the registry at the moment control leaves
the method, so the duplicate-id branch returns the input registry untouched. -/
def start_bot (m : BotManager) (meeting_id : Int) (meet_url meeting_title : String) :
    BotManager × Except String MeetBot :=
  if (m.find meeting_id).isSome then
    (m, .error ("Bot already running for meeting " ++ toString meeting_id))
  else
    let bot := MeetBot.init meeting_id meet_url meeting_title
    (⟨(meeting_id, bot) :: m.active_bots⟩, .ok bot)

/-- Embedding of `BotManager.stop_bot`: unknown id raises without mutating;
otherwise the stored bot's `stop_recording` runs and the entry is deleted. -/
def stop_bot (m : BotManager) (meeting_id : Int) : BotManager × Except String Unit :=
  match m.find meeting_id with
  | none => (m, .error ("No bot running for meeting " ++ toString meeting_id))
  | some _ =>
      let stopped := m.active_bots.map
        (fun p => if p.1 == meeting_id then (p.1, p.2.stop_recording) else p)
      (⟨stopped.filter (fun p => p.1 != meeting_id)⟩, .ok ())

/-- The status dict returned by `get_bot_status`: `recording` and `url` are
absent (`none`) exactly when `running` is false. -/
structure BotStatus where
  running : Bool
  recording : Option Bool
  url : Option String
deriving DecidableEq

/-- Embedding of `BotManager.get_bot_status`. -/
def get_bot_status (m : BotManager) (meeting_id : Int) : BotStatus :=
  match m.find meeting_id with
  | none => ⟨false, none, none⟩
  | some bot => ⟨true, some bot.is_recording, some bot.meet_url⟩

/-! ## Summarizer (src/backend/ai.py) -/

/-- `MAX_RETRIES` from src/backend/ai.py. -/
def MAX_RETRIES : Nat := 3

/-- Oracle for the remote Gemini service, per attempt number:
`upload n` is the outcome of `client.files.upload` on attempt `n`
(`.error m` = `GoogleGenerativeAIError` with message `m`); `generate n` is
the outcome of `client.models.generate_content` on attempt `n`, where a
successful call carries the result of `json.loads(response.text)`
(`.error pe` = `json.JSONDecodeError` with message `pe`, `.ok j` = the
parsed JSON value `j`). -/
structure RemoteEnv where
  upload : Nat → Except String Unit
  generate : Nat → Except String (Except String Json)

/-- Which content branch the `if file_path and os.path.exists(file_path) /
elif transcript / else` chain in `generate_meeting_summary` selects. -/
inductive ContentBranch where
  | audio : ContentBranch
  | text : ContentBranch
  | noContent : ContentBranch
deriving DecidableEq

/-- Python truthiness of `file_path and os.path.exists(file_path)`: an empty
string is falsy, so the existence check only runs on a non-empty path. -/
def audioSelected (file_path : Option String) (fileExists : String → Bool) : Bool :=
  match file_path with
  | some p => (p != "") && fileExists p
  | none => false

/-- Python truthiness of `elif transcript:`. -/
def transcriptSelected (transcript : Option String) : Bool :=
  match transcript with
  | some t => t != ""
  | none => false

/-- The branch chain of `generate_meeting_summary` (its arguments are fixed
for the whole call, so the selected branch is the same on every attempt). -/
def selectBranch (transcript file_path : Option String)
    (fileExists : String → Bool) : ContentBranch :=
  if audioSelected file_path fileExists then .audio
  else if transcriptSelected transcript then .text
  else .noContent

/-- `_get_mock_data`'s summary text: the base sentence, plus the error cause
appended when one is given. -/
def mock_summary_text (error : Option String) : String :=
  match error with
  | none => "AI generation failed. This is a mock summary."
  | some e => "AI generation failed. This is a mock summary." ++ " (Error: " ++ e ++ ")"

/-- Embedding of `_get_mock_data` from src/backend/ai.py. -/
def get_mock_data (error : Option String) : Json :=
  Json.obj
    [ ("summary", Json.str (mock_summary_text error)),
      ("key_points", Json.arr
        [ Json.str "Mock Point 1: Unable to process meeting content",
          Json.str "Mock Point 2: Please check API configuration",
          Json.str "Mock Point 3: Ensure audio file or transcript is valid" ]),
      ("decisions", Json.arr
        [ Json.str "Mock Decision: Review API key and try again" ]),
      ("action_items", Json.arr
        [ Json.obj
            [ ("task", Json.str "Check Gemini API Key configuration"),
              ("owner", Json.str "Developer"),
              ("status", Json.str "Pending") ],
          Json.obj
            [ ("task", Json.str "Verify audio file format (MP3, WAV, MP4 supported)"),
              ("owner", Json.str "Developer"),
              ("status", Json.str "Pending") ] ]),
      ("agenda", Json.arr
        [ Json.str "Topic A: API Configuration",
          Json.str "Topic B: File Format Verification" ]) ]

/-- The post-processing of a successfully parsed reply: `isinstance(result,
list) and len(result) > 0` unwraps the first element, everything else is
returned as is. -/
def extractResult (j : Json) : Json :=
  match j with
  | .arr (x :: _) => x
  | _ => j

/-- The `for attempt in range(MAX_RETRIES)` loop of
`generate_meeting_summary`, run over the list of remaining attempt indices.
A `GoogleGenerativeAIError` from upload or generation retries while
`attempt < MAX_RETRIES - 1` (i.e. while further indices remain) and
otherwise falls back to mock data; a `json.JSONDecodeError` falls back to
mock data at once; the fall-through after the loop is the
`Unknown error occurred` return. -/
def summaryLoop (env : RemoteEnv) (branch : ContentBranch) : List Nat → Json
  | [] => get_mock_data (some "Unknown error occurred during AI processing")
  | attempt :: rest =>
    match branch with
    | .noContent => get_mock_data (some "No content provided for analysis.")
    | .audio =>
      match env.upload attempt with
      | .error m =>
          if rest.isEmpty then get_mock_data (some ("File upload failed: " ++ m))
          else summaryLoop env branch rest
      | .ok _ =>
        match env.generate attempt with
        | .error m =>
            if rest.isEmpty then get_mock_data (some ("Content generation failed: " ++ m))
            else summaryLoop env branch rest
        | .ok (.error pe) => get_mock_data (some ("Failed to parse response: " ++ pe))
        | .ok (.ok j) => extractResult j
    | .text =>
      match env.generate attempt with
      | .error m =>
          if rest.isEmpty then get_mock_data (some ("Content generation failed: " ++ m))
          else summaryLoop env branch rest
      | .ok (.error pe) => get_mock_data (some ("Failed to parse response: " ++ pe))
      | .ok (.ok j) => extractResult j

/-- Embedding of `generate_meeting_summary` from src/backend/ai.py.
`clientInit` is whether the module-level `client` is non-None; `fileExists`
is the `os.path.exists` oracle; `env` the remote-service oracle. -/
def generate_meeting_summary (clientInit : Bool) (transcript file_path : Option String)
    (fileExists : String → Bool) (env : RemoteEnv) : Json :=
  if !clientInit then
    get_mock_data (some "Gemini client not initialized. Check API key configuration.")
  else
    summaryLoop env (selectBranch transcript file_path fileExists) (List.range MAX_RETRIES)

/-- A JSON object carries the five SummaryResult fields. -/
def hasFiveFields (j : Json) : Bool :=
  (jsonLookup j "summary").isSome && (jsonLookup j "key_points").isSome &&
  (jsonLookup j "decisions").isSome && (jsonLookup j "action_items").isSome &&
  (jsonLookup j "agenda").isSome

/-! ## Bot routes (src/backend/bot/routes.py) -/

/-- A row of the `meetings` table, restricted to the columns the bot routes
touch. -/
structure Meeting where
  id : Int
  title : String
  mtype : String
  source : String
  meet_url : Option String
  status : String
  file_path : Option String
  ai_output : Option Json

/-- Server-side state visible to the bot routes: the autoincrement counter
and rows of the database, the process-wide `bot_manager`, the module-level
`audio_sessions` dict, and the files under `bot_recordings/` (path mapped to
byte content). -/
structure ServerState where
  nextId : Int
  meetings : List Meeting
  manager : BotManager
  audio_sessions : List (String × List (List Nat))
  files : List (String × List Nat)

/-- Request body of `POST /bot/join`. -/
structure BotStartRequest where
  meet_url : String
  meeting_title : String
  meeting_type : String

/-- The `BotResponse` model of routes.py. -/
structure BotResponse where
  success : Bool
  meeting_id : Option Int
  message : String
  error : Option String
deriving DecidableEq

/-- Replace-or-append update of an association list, matching assignment to
a Python dict key (a fresh key is appended in insertion order). -/
def assocSet {α : Type} (l : List (String × α)) (k : String) (v : α) :
    List (String × α) :=
  if l.any (fun p => p.1 == k) then
    l.map (fun p => if p.1 == k then (p.1, v) else p)
  else
    l ++ [(k, v)]

/-- `db.query(Meeting).filter(Meeting.id == meeting_id).first()`. -/
def findMeeting (meetings : List Meeting) (meeting_id : Int) : Option Meeting :=
  meetings.find? (fun mt => mt.id == meeting_id)

/-- In-place mutation of the row with the given id, as committed by the ORM. -/
def setMeeting (meetings : List Meeting) (meeting_id : Int) (f : Meeting → Meeting) :
    List Meeting :=
  meetings.map (fun mt => if mt.id == meeting_id then f mt else mt)

/-- The recording path `os.path.join(BOT_RECORDINGS_DIR, f"meeting_{id}.webm")`. -/
def bot_recording_path (meeting_id : Int) : String :=
  "bot_recordings/meeting_" ++ toString meeting_id ++ ".webm"

/-- Embedding of the `POST /bot/join` handler `start_bot_session`. The
invalid-URL `HTTPException` is raised inside the handler's own
`try`/`except Exception`, so it surfaces as a failure `BotResponse` whose
`error` is the exception's string form, before any database write or bot
registration; on a valid URL a meeting row is committed and `start_bot`
runs, whose own exception is likewise converted to a failure response
(leaving the already-committed row in place). -/
def start_bot_session (st : ServerState) (req : BotStartRequest) :
    ServerState × BotResponse :=
  if !(req.meet_url.startsWith "https://meet.google.com/") then
    (st, ⟨false, none, "Failed to start bot", some "400: Invalid Google Meet URL"⟩)
  else
    let mid := st.nextId
    let meeting : Meeting :=
      ⟨mid, req.meeting_title, req.meeting_type, "bot", some req.meet_url,
        "recording", none, none⟩
    let st1 : ServerState :=
      { st with nextId := st.nextId + 1, meetings := st.meetings ++ [meeting] }
    match start_bot st1.manager mid req.meet_url req.meeting_title with
    | (m2, .ok _) =>
        ({ st1 with manager := m2 },
         ⟨true, some mid, "Bot started successfully and is joining the meeting", none⟩)
    | (m2, .error e) =>
        ({ st1 with manager := m2 }, ⟨false, none, "Failed to start bot", some e⟩)

/-- The inline no-audio `ai_output` dict of `stop_bot_session`. -/
def no_audio_output : Json :=
  Json.obj
    [ ("summary", Json.str
        "No audio was recorded. The meeting may have ended before recording started."),
      ("key_points", Json.arr []),
      ("decisions", Json.arr []),
      ("action_items", Json.arr []),
      ("agenda", Json.arr []) ]

/-- Embedding of the `POST /bot/leave/{meeting_id}` handler
`stop_bot_session`. Exceptions inside the `try` body (missing row, non-bot
source, `stop_bot` failure) land in the `except` block, which re-fetches the
row and, when present, commits an error status before returning the failure
response. `clientInit` and `env` parameterize the summarizer call it makes
when a recording file exists. -/
def stop_bot_session (st : ServerState) (meeting_id : Int)
    (clientInit : Bool) (env : RemoteEnv) : ServerState × BotResponse :=
  match findMeeting st.meetings meeting_id with
  | none =>
      (st, ⟨false, some meeting_id, "Failed to stop bot", some "404: Meeting not found"⟩)
  | some meeting =>
      if meeting.source != "bot" then
        let rows := setMeeting st.meetings meeting_id (fun mt => { mt with status := "error" })
        ({ st with meetings := rows },
         ⟨false, some meeting_id, "Failed to stop bot", some "400: This is not a bot session"⟩)
      else
        match stop_bot st.manager meeting_id with
        | (m2, .error e) =>
            let rows := setMeeting st.meetings meeting_id (fun mt => { mt with status := "error" })
            ({ st with manager := m2, meetings := rows },
             ⟨false, some meeting_id, "Failed to stop bot", some e⟩)
        | (m2, .ok _) =>
            let rows := setMeeting st.meetings meeting_id (fun mt => { mt with status := "processing" })
            let st1 : ServerState := { st with manager := m2, meetings := rows }
            let audio_path := bot_recording_path meeting_id
            let fe : String → Bool := fun p => (st1.files.lookup p).isSome
            if fe audio_path then
              let ai := generate_meeting_summary clientInit none (some audio_path) fe env
              let done := setMeeting st1.meetings meeting_id
                (fun mt => { mt with file_path := some audio_path, ai_output := some ai, status := "completed" })
              ({ st1 with meetings := done },
               ⟨true, some meeting_id, "Bot stopped and summary generated", none⟩)
            else
              let failed := setMeeting st1.meetings meeting_id
                (fun mt => { mt with ai_output := some no_audio_output, status := "error" })
              ({ st1 with meetings := failed },
               ⟨true, some meeting_id, "Bot stopped and summary generated", none⟩)

/-- Embedding of the `GET /bot/status/{meeting_id}` handler: a pure read of
`bot_manager.get_bot_status` that touches no server state. -/
def get_bot_status_route (st : ServerState) (meeting_id : Int) :
    ServerState × BotStatus :=
  (st, get_bot_status st.manager meeting_id)

/-- Embedding of the `POST /bot/audio-chunk` handler `receive_audio_chunk`:
ensure the session's chunk list exists, append the chunk, and answer with
the chunk count. -/
def receive_audio_chunk (st : ServerState) (session_id : String)
    (content : List Nat) : ServerState × (Bool × Nat) :=
  let chunks := ((st.audio_sessions.lookup session_id).getD []) ++ [content]
  ({ st with audio_sessions := assocSet st.audio_sessions session_id chunks },
   (true, chunks.length))

/-- Embedding of the `POST /bot/save-audio` handler `save_final_audio`:
append to the recording file when it exists, else create it, and answer with
the path and resulting size. -/
def save_final_audio (st : ServerState) (content : List Nat) (meeting_id : Int) :
    ServerState × (Bool × String × Nat) :=
  let file_path := bot_recording_path meeting_id
  let newContent := ((st.files.lookup file_path).getD []) ++ content
  ({ st with files := assocSet st.files file_path newContent },
   (true, file_path, newContent.length))

/-- A well-formed reply payload, used as a concrete remote-model answer. -/
def goodReply : Json :=
  Json.obj
    [ ("summary", Json.str "All good"),
      ("key_points", Json.arr []),
      ("decisions", Json.arr []),
      ("action_items", Json.arr []),
      ("agenda", Json.arr []) ]

/-- Remote environment whose first reply is malformed while the remaining
attempts would parse fine. -/
def envMalformedFirst : RemoteEnv :=
  ⟨fun _ => .ok (),
   fun n =>
     if n == 0 then .ok (.error "Expecting value: line 1 column 1 (char 0)")
     else .ok (.ok goodReply)⟩

/-- Remote environment whose first call faults and whose second reply is
malformed. -/
def envParseAfterFault : RemoteEnv :=
  ⟨fun _ => .ok (),
   fun n => if n == 0 then .error "boom" else .ok (.error "bad")⟩

/-- Remote environment whose first reply parses to the empty JSON list. -/
def envEmptyList : RemoteEnv :=
  ⟨fun _ => .ok (),
   fun n => if n == 0 then .ok (.ok (Json.arr [])) else .ok (.ok goodReply)⟩

/-- Remote environment that always answers with a singleton JSON list. -/
def envListReply : RemoteEnv :=
  ⟨fun _ => .ok (), fun _ => .ok (.ok (Json.arr [goodReply]))⟩

/-- Remote environment that always answers with a well-formed object. -/
def envHappy : RemoteEnv :=
  ⟨fun _ => .ok (), fun _ => .ok (.ok goodReply)⟩

/-! ## Theorems -/

/-- Deleting a key from the registry list makes a subsequent lookup of that
key fail, whatever the list. -/
theorem lookup_filter_not_eq (l : List (Int × MeetBot)) (id : Int) :
    (l.filter (fun p => p.1 != id)).lookup id = none := by
  induction l with
  | nil => rfl
  | cons hd tl ih =>
      by_cases h : hd.1 = id
      · simp [List.filter_cons, h, ih]
      · have hbne : (hd.1 != id) = true := by simp [bne_iff_ne, h]
        have hbeq : (id == hd.1) = false := by
          simp only [beq_eq_false_iff_ne, ne_eq]
          omega
        simp [List.filter_cons, hbne, List.lookup, hbeq, ih]

/-- C1 counterexample: with all three resources held and only the page close
raising, `cleanup` releases neither the browsing context nor the browser,
even though releasing those two would not have failed — the releases are not
independently guarded. -/
theorem C1_cleanup_not_independent :
    (cleanup ⟨true, true, true⟩ ⟨true, false, false⟩).context_closed = false ∧
    (cleanup ⟨true, true, true⟩ ⟨true, false, false⟩).browser_closed = false := by
  decide

/-- C1 amended: `cleanup` releases page, browsing context, and browser
sequentially under one shared guard, characterized case by case: when no
attempted release fails, every held resource is released; a failure while
releasing the page skips both remaining releases; a failure while releasing
the context (the page release not having failed) keeps the page released
but skips the browser; a failure while releasing the browser (no earlier
release having failed) keeps page and context released. In every failing
case the exception itself is swallowed. -/
theorem C1_cleanup_single_guard :
    (∀ (res : BotResources) (env : CleanupEnv),
        (res.page && env.page_close_fails) = false →
        (res.context && env.context_close_fails) = false →
        (res.browser && env.browser_close_fails) = false →
        cleanup res env = ⟨res.page, res.context, res.browser⟩) ∧
    (∀ (res : BotResources) (env : CleanupEnv),
        res.page = true → env.page_close_fails = true →
        cleanup res env = ⟨false, false, false⟩) ∧
    (∀ (res : BotResources) (env : CleanupEnv),
        (res.page && env.page_close_fails) = false →
        res.context = true → env.context_close_fails = true →
        cleanup res env = ⟨res.page, false, false⟩) ∧
    (∀ (res : BotResources) (env : CleanupEnv),
        (res.page && env.page_close_fails) = false →
        (res.context && env.context_close_fails) = false →
        res.browser = true → env.browser_close_fails = true →
        cleanup res env = ⟨res.page, res.context, false⟩) := by
  refine ⟨?_, ?_, ?_, ?_⟩
  · intro res env h1 h2 h3
    simp [cleanup, h1, h2, h3]
  · intro res env h1 h2
    simp [cleanup, h1, h2]
  · intro res env h1 h2 h3
    simp [cleanup, h1, h2, h3]
  · intro res env h1 h2 h3 h4
    simp [cleanup, h1, h2, h3, h4]

/-- C1 amended, witness: on a fully held session, a failure-free
environment releases everything; a page-close failure releases nothing; a
context-close failure keeps the page released but skips the browser; a
browser-close failure keeps page and context released. -/
theorem C1_cleanup_single_guard_witness :
    cleanup ⟨true, true, true⟩ ⟨false, false, false⟩ = ⟨true, true, true⟩ ∧
    cleanup ⟨true, true, true⟩ ⟨true, false, false⟩ = ⟨false, false, false⟩ ∧
    cleanup ⟨true, true, true⟩ ⟨false, true, false⟩ = ⟨true, false, false⟩ ∧
    cleanup ⟨true, true, true⟩ ⟨false, false, true⟩ = ⟨true, true, false⟩ :=
  ⟨C1_cleanup_single_guard.1 ⟨true, true, true⟩ ⟨false, false, false⟩ rfl rfl rfl,
   C1_cleanup_single_guard.2.1 ⟨true, true, true⟩ ⟨true, false, false⟩ rfl rfl,
   C1_cleanup_single_guard.2.2.1 ⟨true, true, true⟩ ⟨false, true, false⟩ rfl rfl rfl,
   C1_cleanup_single_guard.2.2.2 ⟨true, true, true⟩ ⟨false, false, true⟩ rfl rfl rfl rfl⟩

/-- C3: after a successful `start_bot` for a meeting id, a second
`start_bot` for the same id fails with the already-running error, returns
the registry unchanged, and leaves the first session's status (running
flag, recording flag, url) exactly as it was. -/
theorem C3_double_start_rejected (m m1 : BotManager) (id : Int)
    (u t u2 t2 : String) (bot : MeetBot)
    (h : start_bot m id u t = (m1, Except.ok bot)) :
    (start_bot m1 id u2 t2).2
        = Except.error ("Bot already running for meeting " ++ toString id) ∧
    (start_bot m1 id u2 t2).1 = m1 ∧
    get_bot_status (start_bot m1 id u2 t2).1 id = get_bot_status m1 id ∧
    get_bot_status m1 id = ⟨true, some bot.is_recording, some bot.meet_url⟩ := by
  by_cases habs : (m.find id).isSome
  · simp [start_bot, habs] at h
  · rw [start_bot, if_neg habs] at h
    injection h with hm1 hok
    injection hok with hbot
    have hfind : m1.find id = some bot := by
      rw [← hm1, ← hbot]
      simp [BotManager.find, List.lookup]
    have hsome : (m1.find id).isSome := by simp [hfind]
    refine ⟨?_, ?_, ?_, ?_⟩
    · simp [start_bot, hsome]
    · simp [start_bot, hsome]
    · simp [start_bot, hsome]
    · simp [get_bot_status, hfind]

/-- C3 witness: starting meeting 1 twice on the empty registry rejects the
second call and keeps the first session's status. -/
theorem C3_double_start_rejected_witness :
    (start_bot (start_bot ⟨[]⟩ 1 "https://meet.google.com/abc" "Standup").1 1 "u2" "t2").2
        = Except.error ("Bot already running for meeting " ++ toString (1 : Int)) ∧
    (start_bot (start_bot ⟨[]⟩ 1 "https://meet.google.com/abc" "Standup").1 1 "u2" "t2").1
        = (start_bot ⟨[]⟩ 1 "https://meet.google.com/abc" "Standup").1 ∧
    get_bot_status
        (start_bot (start_bot ⟨[]⟩ 1 "https://meet.google.com/abc" "Standup").1 1 "u2" "t2").1 1
        = get_bot_status (start_bot ⟨[]⟩ 1 "https://meet.google.com/abc" "Standup").1 1 ∧
    get_bot_status (start_bot ⟨[]⟩ 1 "https://meet.google.com/abc" "Standup").1 1
        = ⟨true, some false, some "https://meet.google.com/abc"⟩ :=
  C3_double_start_rejected ⟨[]⟩
    (start_bot ⟨[]⟩ 1 "https://meet.google.com/abc" "Standup").1 1
    "https://meet.google.com/abc" "Standup" "u2" "t2"
    (MeetBot.init 1 "https://meet.google.com/abc" "Standup") rfl

/-- C4: `stop_bot` fails with the not-found error exactly when the registry
has no entry for the id, leaving the registry untouched in that case; when
an entry exists it succeeds, and afterwards the status of that id reports
not running. -/
theorem C4_stop_bot_spec (m : BotManager) (id : Int) :
    (m.find id = none →
        stop_bot m id = (m, Except.error ("No bot running for meeting " ++ toString id))) ∧
    ((m.find id).isSome →
        (stop_bot m id).2 = Except.ok () ∧
        get_bot_status (stop_bot m id).1 id = ⟨false, none, none⟩) := by
  constructor
  · intro h
    simp [stop_bot, h]
  · intro h
    obtain ⟨bot, hbot⟩ := Option.isSome_iff_exists.mp h
    have hbot2 : List.lookup id m.active_bots = some bot := hbot
    refine ⟨by simp [stop_bot, BotManager.find, hbot2], ?_⟩
    simp only [stop_bot, BotManager.find, hbot2]
    simp only [get_bot_status, BotManager.find]
    rw [lookup_filter_not_eq]

/-- C4 witness: stopping on the empty registry fails without change, and
stopping a registered meeting leaves its status not running. -/
theorem C4_stop_bot_spec_witness :
    stop_bot ⟨[]⟩ 7
        = (⟨[]⟩, Except.error ("No bot running for meeting " ++ toString (7 : Int))) ∧
    (stop_bot ⟨[(7, MeetBot.init 7 "u" "t")]⟩ 7).2 = Except.ok () ∧
    get_bot_status (stop_bot ⟨[(7, MeetBot.init 7 "u" "t")]⟩ 7).1 7 = ⟨false, none, none⟩ :=
  ⟨(C4_stop_bot_spec ⟨[]⟩ 7).1 rfl,
   (C4_stop_bot_spec ⟨[(7, MeetBot.init 7 "u" "t")]⟩ 7).2 (by decide)⟩

/-- C5: `get_bot_status` is total over all integer ids (including negative
or stale ones): it answers running-false when no session is registered, and
running-true with the session's recording flag and target url when one is. -/
theorem C5_status_total (m : BotManager) (id : Int) :
    (m.find id = none → get_bot_status m id = ⟨false, none, none⟩) ∧
    (∀ bot : MeetBot, m.find id = some bot →
        get_bot_status m id = ⟨true, some bot.is_recording, some bot.meet_url⟩) := by
  constructor
  · intro h
    simp [get_bot_status, h]
  · intro bot h
    simp [get_bot_status, h]

/-- C5 witness: on a registry holding meeting 1, a negative id reports not
running, and id 1 reports its session's flag and url. -/
theorem C5_status_total_witness :
    get_bot_status ⟨[(1, MeetBot.init 1 "https://meet.google.com/abc" "Standup")]⟩ (-5)
        = ⟨false, none, none⟩ ∧
    get_bot_status ⟨[(1, MeetBot.init 1 "https://meet.google.com/abc" "Standup")]⟩ 1
        = ⟨true, some false, some "https://meet.google.com/abc"⟩ :=
  ⟨(C5_status_total ⟨[(1, MeetBot.init 1 "https://meet.google.com/abc" "Standup")]⟩ (-5)).1
      (by decide),
   (C5_status_total ⟨[(1, MeetBot.init 1 "https://meet.google.com/abc" "Standup")]⟩ 1).2
      (MeetBot.init 1 "https://meet.google.com/abc" "Standup") (by decide)⟩

/-- In the transcript branch, a remote fault on a non-final attempt makes
the retry loop move on to the next attempt. -/
theorem summaryLoop_text_fault_step (env : RemoteEnv) (a : Nat) (rest : List Nat)
    (m : String) (hm : env.generate a = Except.error m) (hne : rest ≠ []) :
    summaryLoop env .text (a :: rest) = summaryLoop env .text rest := by
  have hre : rest.isEmpty = false := by
    cases rest with
    | nil => exact absurd rfl hne
    | cons x xs => rfl
  simp [summaryLoop, hm, hre]

/-- In the transcript branch, an attempt whose remote call answers is final:
a malformed reply falls back to mock data at once and a parsed reply is
post-processed and returned, regardless of remaining attempts. -/
theorem summaryLoop_text_reply (env : RemoteEnv) (a : Nat) (rest : List Nat)
    (r : Except String Json) (hr : env.generate a = Except.ok r) :
    summaryLoop env .text (a :: rest)
      = match r with
        | .error pe => get_mock_data (some ("Failed to parse response: " ++ pe))
        | .ok j => extractResult j := by
  cases r with
  | error pe => simp [summaryLoop, hr]
  | ok j => simp [summaryLoop, hr]

/-- If the first `k` attempts fault and attempt `k` receives a reply,
`generate_meeting_summary` on a transcript returns that reply's processing
result: mock data with the parse error if it is malformed, the
post-processed JSON value otherwise. -/
theorem generate_text_attempt (env : RemoteEnv) (t : String) (fe : String → Bool)
    (ht : t ≠ "") (k : Nat) (hk : k < MAX_RETRIES)
    (hprev : ∀ j, j < k → ∃ m, env.generate j = Except.error m)
    (r : Except String Json) (hr : env.generate k = Except.ok r) :
    generate_meeting_summary true (some t) none fe env
      = match r with
        | .error pe => get_mock_data (some ("Failed to parse response: " ++ pe))
        | .ok j => extractResult j := by
  have hbranch : selectBranch (some t) none fe = ContentBranch.text := by
    simp [selectBranch, audioSelected, transcriptSelected, ht]
  have hstart : generate_meeting_summary true (some t) none fe env
      = summaryLoop env ContentBranch.text [0, 1, 2] := by
    simp [generate_meeting_summary, hbranch]
    rfl
  rw [hstart]
  have hk3 : k < 3 := hk
  interval_cases k
  · rw [summaryLoop_text_reply env 0 [1, 2] r hr]
  · obtain ⟨m0, h0⟩ := hprev 0 (by omega)
    rw [summaryLoop_text_fault_step env 0 [1, 2] m0 h0 (by simp),
        summaryLoop_text_reply env 1 [2] r hr]
  · obtain ⟨m0, h0⟩ := hprev 0 (by omega)
    obtain ⟨m1, h1⟩ := hprev 1 (by omega)
    rw [summaryLoop_text_fault_step env 0 [1, 2] m0 h0 (by simp),
        summaryLoop_text_fault_step env 1 [2] m1 h1 (by simp),
        summaryLoop_text_reply env 2 [] r hr]

/-- C2 counterexample: with a malformed reply on the first attempt, the
summarizer returns the parse-error mock result at once, even though two
retry attempts remain and both would have produced a well-formed reply —
so the degraded result is not produced "only after the retry budget of 3
attempts is exhausted". -/
theorem C2_counterexample :
    generate_meeting_summary true (some "hello") none (fun _ => false) envMalformedFirst
        = get_mock_data (some ("Failed to parse response: "
            ++ "Expecting value: line 1 column 1 (char 0)")) ∧
    envMalformedFirst.generate 1 = Except.ok (Except.ok goodReply) ∧
    envMalformedFirst.generate 2 = Except.ok (Except.ok goodReply) :=
  ⟨rfl, rfl, rfl⟩

/-- C2 amended: a malformed reply produces the degraded result embedding
the parse-error description immediately on the attempt that received it;
the 3-attempt retry budget applies only to remote-call faults
(upload/generation errors), not to parse failures. -/
theorem C2_parse_error_immediate (env : RemoteEnv) (t pe : String) (fe : String → Bool)
    (ht : t ≠ "") (k : Nat) (hk : k < MAX_RETRIES)
    (hprev : ∀ j, j < k → ∃ m, env.generate j = Except.error m)
    (hr : env.generate k = Except.ok (Except.error pe)) :
    generate_meeting_summary true (some t) none fe env
      = get_mock_data (some ("Failed to parse response: " ++ pe)) := by
  have h := generate_text_attempt env t fe ht k hk hprev (Except.error pe) hr
  simpa using h

/-- C2 amended, witness: a fault on attempt 0 followed by a malformed reply
on attempt 1 yields the parse-error mock result. -/
theorem C2_parse_error_immediate_witness :
    generate_meeting_summary true (some "hello") none (fun _ => false) envParseAfterFault
        = get_mock_data (some ("Failed to parse response: " ++ "bad")) :=
  C2_parse_error_immediate envParseAfterFault "hello" "bad" (fun _ => false)
    (by decide) 1 (by decide)
    (by
      intro j hj
      interval_cases j
      exact ⟨"boom", rfl⟩)
    rfl

/-- Every run of the retry loop ends in either a mock-data fallback or a
post-processed parsed reply. -/
theorem summaryLoop_shape (env : RemoteEnv) (branch : ContentBranch) (fuel : List Nat) :
    (∃ e, summaryLoop env branch fuel = get_mock_data (some e)) ∨
    (∃ j, summaryLoop env branch fuel = extractResult j) := by
  induction fuel with
  | nil => exact Or.inl ⟨_, rfl⟩
  | cons a rest ih =>
      cases branch with
      | noContent => exact Or.inl ⟨_, rfl⟩
      | audio =>
          rcases hu : env.upload a with mu | u
          · cases hre : rest.isEmpty with
            | true =>
                exact Or.inl ⟨"File upload failed: " ++ mu, by simp [summaryLoop, hu, hre]⟩
            | false =>
                have : summaryLoop env .audio (a :: rest) = summaryLoop env .audio rest := by
                  simp [summaryLoop, hu, hre]
                rw [this]
                exact ih
          · rcases hg : env.generate a with mg | r
            · cases hre : rest.isEmpty with
              | true =>
                  exact Or.inl ⟨"Content generation failed: " ++ mg,
                    by simp [summaryLoop, hu, hg, hre]⟩
              | false =>
                  have : summaryLoop env .audio (a :: rest) = summaryLoop env .audio rest := by
                    simp [summaryLoop, hu, hg, hre]
                  rw [this]
                  exact ih
            · rcases r with pe | j
              · exact Or.inl ⟨"Failed to parse response: " ++ pe,
                  by simp [summaryLoop, hu, hg]⟩
              · exact Or.inr ⟨j, by simp [summaryLoop, hu, hg]⟩
      | text =>
          rcases hg : env.generate a with mg | r
          · cases hre : rest.isEmpty with
            | true =>
                exact Or.inl ⟨"Content generation failed: " ++ mg,
                  by simp [summaryLoop, hg, hre]⟩
            | false =>
                have : summaryLoop env .text (a :: rest) = summaryLoop env .text rest := by
                  simp [summaryLoop, hg, hre]
                rw [this]
                exact ih
          · rcases r with pe | j
            · exact Or.inl ⟨"Failed to parse response: " ++ pe, by simp [summaryLoop, hg]⟩
            · exact Or.inr ⟨j, by simp [summaryLoop, hg]⟩

/-- C6: the summarizer never raises — every call returns either a mock-data
fallback or a post-processed parsed reply; every mock-data fallback carries
the five SummaryResult fields with the error cause appended inside the
summary field; with neither transcript nor audio path the result is the
no-content mock; with an uninitialized client it is the
client-not-initialized mock. -/
theorem C6_summarizer_never_raises :
    (∀ (clientInit : Bool) (transcript file_path : Option String)
        (fileExists : String → Bool) (env : RemoteEnv),
        (∃ e, generate_meeting_summary clientInit transcript file_path fileExists env
            = get_mock_data (some e)) ∨
        (∃ j, generate_meeting_summary clientInit transcript file_path fileExists env
            = extractResult j)) ∧
    (∀ e : String,
        hasFiveFields (get_mock_data (some e)) = true ∧
        jsonLookup (get_mock_data (some e)) "summary"
          = some (Json.str ("AI generation failed. This is a mock summary."
              ++ " (Error: " ++ e ++ ")"))) ∧
    (∀ (fileExists : String → Bool) (env : RemoteEnv),
        generate_meeting_summary true none none fileExists env
          = get_mock_data (some "No content provided for analysis.")) ∧
    (∀ (transcript file_path : Option String) (fileExists : String → Bool)
        (env : RemoteEnv),
        generate_meeting_summary false transcript file_path fileExists env
          = get_mock_data
              (some "Gemini client not initialized. Check API key configuration.")) := by
  refine ⟨?_, ?_, ?_, ?_⟩
  · intro clientInit transcript file_path fileExists env
    cases clientInit with
    | false => exact Or.inl ⟨_, rfl⟩
    | true =>
        have : generate_meeting_summary true transcript file_path fileExists env
            = summaryLoop env (selectBranch transcript file_path fileExists)
                (List.range MAX_RETRIES) := rfl
        rw [this]
        exact summaryLoop_shape env _ _
  · intro e
    exact ⟨rfl, rfl⟩
  · intro fileExists env
    rfl
  · intro transcript file_path fileExists env
    rfl

/-- C7: given both a non-empty transcript and a non-empty audio path, the
audio branch is selected exactly when the referenced file exists, and
otherwise the transcript branch is selected; the summarizer runs its retry
loop on the branch so selected. -/
theorem C7_audio_path_preferred (t p : String) (fe : String → Bool) (env : RemoteEnv)
    (ht : t ≠ "") (hp : p ≠ "") :
    selectBranch (some t) (some p) fe
        = (if fe p then ContentBranch.audio else ContentBranch.text) ∧
    generate_meeting_summary true (some t) (some p) fe env
        = summaryLoop env (if fe p then ContentBranch.audio else ContentBranch.text)
            (List.range MAX_RETRIES) := by
  have hsel : selectBranch (some t) (some p) fe
      = (if fe p then ContentBranch.audio else ContentBranch.text) := by
    cases hfe : fe p with
    | true => simp [selectBranch, audioSelected, hp, hfe]
    | false => simp [selectBranch, audioSelected, transcriptSelected, hp, ht, hfe]
  refine ⟨hsel, ?_⟩
  have : generate_meeting_summary true (some t) (some p) fe env
      = summaryLoop env (selectBranch (some t) (some p) fe) (List.range MAX_RETRIES) := rfl
  rw [this, hsel]

/-- C7 witness: with transcript "hello", path "a.webm" and an existing
file, the audio branch is selected and drives the loop. -/
theorem C7_audio_path_preferred_witness :
    selectBranch (some "hello") (some "a.webm") (fun _ => true) = ContentBranch.audio ∧
    generate_meeting_summary true (some "hello") (some "a.webm") (fun _ => true) envHappy
        = summaryLoop envHappy ContentBranch.audio (List.range MAX_RETRIES) := by
  have h := C7_audio_path_preferred "hello" "a.webm" (fun _ => true) envHappy
    (by decide) (by decide)
  simpa using h

/-- C8 counterexample: a reply whose parsed top-level JSON value is the
empty list is returned unchanged as that empty list — there is no first
element to return, so "returns the list's first element" fails for this
reply. -/
theorem C8_counterexample :
    generate_meeting_summary true (some "hello") none (fun _ => false) envEmptyList
        = Json.arr [] := rfl

/-- C8 amended: for every reply whose parsed top-level JSON value is a
non-empty list, the summarizer returns the list's first element; the empty
list is returned as is. -/
theorem C8_nonempty_list_unwrapped (env : RemoteEnv) (t : String) (fe : String → Bool)
    (x : Json) (xs : List Json) (ht : t ≠ "") (k : Nat) (hk : k < MAX_RETRIES)
    (hprev : ∀ j, j < k → ∃ m, env.generate j = Except.error m)
    (hr : env.generate k = Except.ok (Except.ok (Json.arr (x :: xs)))) :
    generate_meeting_summary true (some t) none fe env = x := by
  have h := generate_text_attempt env t fe ht k hk hprev (Except.ok (Json.arr (x :: xs))) hr
  simpa [extractResult] using h

/-- C8 amended, witness: a singleton-list reply on the first attempt is
unwrapped to its first element. -/
theorem C8_nonempty_list_unwrapped_witness :
    generate_meeting_summary true (some "hello") none (fun _ => false) envListReply
        = goodReply :=
  C8_nonempty_list_unwrapped envListReply "hello" (fun _ => false) goodReply []
    (by decide) 0 (by decide)
    (by
      intro j hj
      exact absurd hj (by omega))
    rfl

/-- C9: a join request whose meeting url does not start with
"https://meet.google.com/" is answered with a failure response carrying the
invalid-URL error and no meeting id, and the whole server state — meeting
rows, bot registry, and all — is left untouched. -/
theorem C9_invalid_url_rejected (st : ServerState) (req : BotStartRequest)
    (h : req.meet_url.startsWith "https://meet.google.com/" = false) :
    (start_bot_session st req).1 = st ∧
    (start_bot_session st req).2.success = false ∧
    (start_bot_session st req).2.error = some "400: Invalid Google Meet URL" ∧
    (start_bot_session st req).2.meeting_id = none := by
  simp [start_bot_session, h]

set_option maxRecDepth 4000 in
/-- C9 witness: a non-Meet url on the empty server state is rejected
without any state change. -/
theorem C9_invalid_url_rejected_witness :
    (start_bot_session ⟨1, [], ⟨[]⟩, [], []⟩ ⟨"https://zoom.us/j/1", "T", "team_meeting"⟩).1
        = ⟨1, [], ⟨[]⟩, [], []⟩ ∧
    (start_bot_session ⟨1, [], ⟨[]⟩, [], []⟩ ⟨"https://zoom.us/j/1", "T", "team_meeting"⟩).2.success
        = false ∧
    (start_bot_session ⟨1, [], ⟨[]⟩, [], []⟩ ⟨"https://zoom.us/j/1", "T", "team_meeting"⟩).2.error
        = some "400: Invalid Google Meet URL" ∧
    (start_bot_session ⟨1, [], ⟨[]⟩, [], []⟩ ⟨"https://zoom.us/j/1", "T", "team_meeting"⟩).2.meeting_id
        = none :=
  C9_invalid_url_rejected ⟨1, [], ⟨[]⟩, [], []⟩ ⟨"https://zoom.us/j/1", "T", "team_meeting"⟩ rfl

/-- C10: the chunk-ingestion handler only appends the posted chunk to the
session's in-memory list (leaving every other state component alone) and
answers with the chunk count; stopping a bot, committing final audio,
querying status, and joining all leave the chunk store unchanged. -/
theorem C10_chunk_store_frame :
    (∀ (st : ServerState) (sid : String) (content : List Nat),
        (receive_audio_chunk st sid content).1.audio_sessions
            = assocSet st.audio_sessions sid
                (((st.audio_sessions.lookup sid).getD []) ++ [content]) ∧
        (receive_audio_chunk st sid content).1.manager = st.manager ∧
        (receive_audio_chunk st sid content).1.meetings = st.meetings ∧
        (receive_audio_chunk st sid content).1.files = st.files ∧
        (receive_audio_chunk st sid content).1.nextId = st.nextId ∧
        (receive_audio_chunk st sid content).2.2
            = (((st.audio_sessions.lookup sid).getD []) ++ [content]).length) ∧
    (∀ (st : ServerState) (meeting_id : Int) (clientInit : Bool) (env : RemoteEnv),
        (stop_bot_session st meeting_id clientInit env).1.audio_sessions
            = st.audio_sessions) ∧
    (∀ (st : ServerState) (content : List Nat) (meeting_id : Int),
        (save_final_audio st content meeting_id).1.audio_sessions = st.audio_sessions) ∧
    (∀ (st : ServerState) (meeting_id : Int),
        (get_bot_status_route st meeting_id).1 = st) ∧
    (∀ (st : ServerState) (req : BotStartRequest),
        (start_bot_session st req).1.audio_sessions = st.audio_sessions) := by
  refine ⟨?_, ?_, ?_, ?_, ?_⟩
  · intro st sid content
    exact ⟨rfl, rfl, rfl, rfl, rfl, rfl⟩
  · intro st meeting_id clientInit env
    simp only [stop_bot_session]
    split
    · rfl
    · split
      · rfl
      · split
        · rfl
        · split <;> rfl
  · intro st content meeting_id
    rfl
  · intro st meeting_id
    rfl
  · intro st req
    simp only [start_bot_session]
    split
    · rfl
    · split <;> rfl
